import Mathlib

/-!
Verification of the 1on1 Mirror analysis pipeline.

This development shallowly embeds the deterministic core of the analysis
pipeline:

* `SpeechAnalyzer` (server/app/calculators/speech_analyzer.py),
* `GoalAlignmentCalculator` (server/app/calculators/goal_alignment_calculator.py),
* `ReportFormatter` (server/app/formatters/report_formatter.py),
* the result-gathering step of `OneOnOneService.analyze_audio`
  (server/app/domain/oneonone/service.py, lines 134-153).

Python floats are modelled as exact rationals (`ℚ`), Python ints as `ℤ`/`ℕ`,
Python strings as `String`, fallible code as `Except String`.  Python's
`sorted`/`list.sort` are stable; they are modelled by `List.insertionSort`,
which is stable for the total preorders used as sort keys, so both produce
the same list.
-/

namespace OneOnOne

instance {ε α : Type} [DecidableEq ε] [DecidableEq α] : DecidableEq (Except ε α)
  | .error e, .error f => if h : e = f then isTrue (by rw [h]) else isFalse (by simp [h])
  | .error _, .ok _ => isFalse (by simp)
  | .ok _, .error _ => isFalse (by simp)
  | .ok a, .ok b => if h : a = b then isTrue (by rw [h]) else isFalse (by simp [h])

/-- One Whisper speech segment (speech_analyzer.py, `SpeechSegment`). -/
structure SpeechSegment where
  speaker : String
  text : String
  start_time : ℚ
  end_time : ℚ
deriving DecidableEq, Repr

/-- Derived duration attribute `end_time - start_time`. -/
def SpeechSegment.duration (s : SpeechSegment) : ℚ := s.end_time - s.start_time

/-- Input model (`WhisperTranscription`). -/
structure WhisperTranscription where
  segments : List SpeechSegment
  manager_identifier : String := "manager"
  member_identifier : String := "member"
  total_duration : Option ℚ := none
deriving DecidableEq, Repr

/-- Output model (`SpeechAnalysisResult`). -/
structure SpeechAnalysisResult where
  manager_speaking_time : ℚ
  member_speaking_time : ℚ
  total_speaking_time : ℚ
  total_silence_time : ℚ
  silence_percentage : ℚ
  manager_speaking_ratio : ℚ
  member_speaking_ratio : ℚ
  manager_turn_count : ℕ
  member_turn_count : ℕ
  total_turns : ℕ
  manager_avg_segment_duration : ℚ
  member_avg_segment_duration : ℚ
  meeting_duration : ℚ
deriving DecidableEq, Repr

namespace SpeechAnalyzer

/-- The per-segment checks of `SpeechAnalyzer.validate_input`, iterated with
the running segment index used in the Python error messages. -/
def validateSegments (mgr mem : String) : ℕ → List SpeechSegment → Except String Unit
  | _, [] => .ok ()
  | i, s :: rest =>
    if s.start_time < 0 then
      .error ("Segment " ++ toString i ++ " has negative start_time")
    else if s.end_time < s.start_time then
      .error ("Segment " ++ toString i ++ " has end_time before start_time")
    else if ¬ (s.speaker = mgr ∨ s.speaker = mem) then
      .error ("Segment " ++ toString i ++ " has invalid speaker")
    else
      validateSegments mgr mem (i + 1) rest

/-- `SpeechAnalyzer.validate_input`. -/
def validate_input (data : WhisperTranscription) : Except String Unit :=
  if data.segments.isEmpty then
    .error "Segments list cannot be empty"
  else
    validateSegments data.manager_identifier data.member_identifier 0 data.segments

/-- The sorting step `sorted(data.segments, key=lambda s: s.start_time)`:
Python's stable sort by `start_time`, modelled by the stable `insertionSort`. -/
def sortSegments (l : List SpeechSegment) : List SpeechSegment :=
  l.insertionSort (fun a b => a.start_time ≤ b.start_time)

/-- Manager speaking-time accumulation of the `for segment in sorted_segments`
loop (`if segment.speaker == data.manager_identifier`). -/
def managerTime (mgr : String) (l : List SpeechSegment) : ℚ :=
  l.foldl (fun acc s => if s.speaker = mgr then acc + s.duration else acc) 0

/-- Member speaking-time accumulation (`elif segment.speaker == data.member_identifier`,
only reached when the manager branch did not fire). -/
def memberTime (mgr mem : String) (l : List SpeechSegment) : ℚ :=
  l.foldl
    (fun acc s =>
      if s.speaker = mgr then acc
      else if s.speaker = mem then acc + s.duration
      else acc) 0

/-- Manager turn counting in the same loop. -/
def managerTurns (mgr : String) (l : List SpeechSegment) : ℕ :=
  l.foldl (fun acc s => if s.speaker = mgr then acc + 1 else acc) 0

/-- Member turn counting in the same loop. -/
def memberTurns (mgr mem : String) (l : List SpeechSegment) : ℕ :=
  l.foldl
    (fun acc s =>
      if s.speaker = mgr then acc
      else if s.speaker = mem then acc + 1
      else acc) 0

/-- `SpeechAnalyzer._calculate_silence_time`: sum of the positive gaps between
adjacent sorted segments (non-positive gaps contribute nothing). -/
def silenceTime : List SpeechSegment → ℚ
  | a :: b :: rest =>
    (if b.start_time - a.end_time > 0 then b.start_time - a.end_time else 0) +
      silenceTime (b :: rest)
  | _ => 0

/-- `sorted_segments[-1].end_time if sorted_segments else 0.0`. -/
def lastEndTime (l : List SpeechSegment) : ℚ :=
  match l.getLast? with
  | some s => s.end_time
  | none => 0

/-- Meeting duration selection: `if data.total_duration:` is Python truthiness,
so `None` and `0.0` both fall back to the last sorted segment's end time. -/
def meetingDuration (data : WhisperTranscription) (sortedSegs : List SpeechSegment) : ℚ :=
  match data.total_duration with
  | some d => if d ≠ 0 then d else lastEndTime sortedSegs
  | none => lastEndTime sortedSegs

/-- The computation part of `SpeechAnalyzer.calculate` after validation. -/
def computeResult (data : WhisperTranscription) : SpeechAnalysisResult :=
  let sortedSegs := sortSegments data.segments
  let manager_time := managerTime data.manager_identifier sortedSegs
  let member_time := memberTime data.manager_identifier data.member_identifier sortedSegs
  let manager_turns := managerTurns data.manager_identifier sortedSegs
  let member_turns := memberTurns data.manager_identifier data.member_identifier sortedSegs
  let total_speaking_time := manager_time + member_time
  let total_silence_time := silenceTime sortedSegs
  let meeting_duration := meetingDuration data sortedSegs
  { manager_speaking_time := manager_time
    member_speaking_time := member_time
    total_speaking_time := total_speaking_time
    total_silence_time := total_silence_time
    silence_percentage :=
      if meeting_duration > 0 then total_silence_time / meeting_duration * 100 else 0
    manager_speaking_ratio :=
      if total_speaking_time > 0 then manager_time / total_speaking_time else 0
    member_speaking_ratio :=
      if total_speaking_time > 0 then member_time / total_speaking_time else 0
    manager_turn_count := manager_turns
    member_turn_count := member_turns
    total_turns := manager_turns + member_turns
    manager_avg_segment_duration :=
      if manager_turns > 0 then manager_time / manager_turns else 0
    member_avg_segment_duration :=
      if member_turns > 0 then member_time / member_turns else 0
    meeting_duration := meeting_duration }

/-- `SpeechAnalyzer.calculate`: validation, the redundant emptiness re-check,
then the numeric computation. -/
def calculate (data : WhisperTranscription) : Except String SpeechAnalysisResult :=
  match validate_input data with
  | .error e => .error e
  | .ok _ =>
    if data.segments.isEmpty then .error "Cannot analyze empty transcription"
    else .ok (computeResult data)

/-- The validity predicate the spec states for transcripts: segments non-empty,
non-negative start times, `end_time ≥ start_time`, known speakers. -/
def ValidTranscription (data : WhisperTranscription) : Prop :=
  data.segments ≠ [] ∧
    ∀ s ∈ data.segments,
      0 ≤ s.start_time ∧ s.start_time ≤ s.end_time ∧
        (s.speaker = data.manager_identifier ∨ s.speaker = data.member_identifier)

instance (data : WhisperTranscription) : Decidable (ValidTranscription data) := by
  unfold ValidTranscription; infer_instance

end SpeechAnalyzer

end OneOnOne

namespace OneOnOne

namespace SpeechAnalyzer

lemma validateSegments_ok_iff (mgr mem : String) :
    ∀ (l : List SpeechSegment) (i : ℕ),
      validateSegments mgr mem i l = .ok () ↔
        ∀ s ∈ l, 0 ≤ s.start_time ∧ s.start_time ≤ s.end_time ∧
          (s.speaker = mgr ∨ s.speaker = mem) := by
  intro l
  induction l with
  | nil => intro i; simp [validateSegments]
  | cons s rest ih =>
    intro i
    simp only [validateSegments, List.mem_cons]
    by_cases h1 : s.start_time < 0
    · rw [if_pos h1]
      exact iff_of_false (by simp)
        (fun h => absurd (h s (Or.inl rfl)).1 (not_le.mpr h1))
    · rw [if_neg h1]
      by_cases h2 : s.end_time < s.start_time
      · rw [if_pos h2]
        exact iff_of_false (by simp)
          (fun h => absurd (h s (Or.inl rfl)).2.1 (not_le.mpr h2))
      · rw [if_neg h2]
        by_cases h3 : s.speaker = mgr ∨ s.speaker = mem
        · rw [if_neg (not_not_intro h3)]
          have hrec := ih (i + 1)
          constructor
          · intro h t ht
            rcases ht with rfl | ht
            · exact ⟨not_lt.mp h1, not_lt.mp h2, h3⟩
            · exact (hrec.mp h) t ht
          · intro h
            exact hrec.mpr (fun t ht => h t (Or.inr ht))
        · rw [if_pos h3]
          exact iff_of_false (by simp)
            (fun h => absurd (h s (Or.inl rfl)).2.2 h3)

lemma validate_input_ok_iff (data : WhisperTranscription) :
    validate_input data = .ok () ↔ ValidTranscription data := by
  unfold validate_input ValidTranscription
  split_ifs with h
  · simp only [reduceCtorEq, false_iff, not_and]
    intro hne
    exact absurd (List.isEmpty_iff.mp h) hne
  · rw [validateSegments_ok_iff]
    simp only [List.isEmpty_iff] at h
    exact ⟨fun hall => ⟨h, hall⟩, fun hv => hv.2⟩

lemma calculate_ok_iff (data : WhisperTranscription) (r : SpeechAnalysisResult) :
    calculate data = .ok r ↔ ValidTranscription data ∧ r = computeResult data := by
  unfold calculate
  rcases hv : validate_input data with e | u
  · simp only [reduceCtorEq, false_iff, not_and]
    intro hvalid
    rw [← validate_input_ok_iff] at hvalid
    rw [hv] at hvalid
    exact absurd hvalid (by simp)
  · obtain rfl : u = () := rfl
    rw [validate_input_ok_iff] at hv
    have hne : data.segments.isEmpty = false := by
      rcases hl : data.segments with _ | _
      · exact absurd hl hv.1
      · rfl
    simp only [hne, Bool.false_eq_true, if_false, Except.ok.injEq]
    exact ⟨fun h => ⟨hv, h.symm⟩, fun h => h.2.symm⟩

lemma le_foldl_of_step {g : ℚ → SpeechSegment → ℚ} {l : List SpeechSegment}
    (hstep : ∀ acc, ∀ s ∈ l, acc ≤ g acc s) :
    ∀ acc, acc ≤ l.foldl g acc := by
  induction l with
  | nil => intro acc; simp
  | cons s rest ih =>
    intro acc
    have h1 : acc ≤ g acc s := hstep acc s (List.mem_cons_self s rest)
    have h2 : g acc s ≤ List.foldl g (g acc s) rest :=
      ih (fun acc t ht => hstep acc t (List.mem_cons_of_mem s ht)) (g acc s)
    exact le_trans h1 (by simpa using h2)

lemma managerTime_nonneg {mgr : String} {l : List SpeechSegment}
    (h : ∀ s ∈ l, 0 ≤ s.duration) : 0 ≤ managerTime mgr l := by
  unfold managerTime
  refine le_foldl_of_step (fun acc s hs => ?_) 0
  by_cases hsp : s.speaker = mgr
  · simp only [hsp, if_pos rfl]
    exact le_add_of_nonneg_right (h s hs)
  · simp [hsp]

lemma memberTime_nonneg {mgr mem : String} {l : List SpeechSegment}
    (h : ∀ s ∈ l, 0 ≤ s.duration) : 0 ≤ memberTime mgr mem l := by
  unfold memberTime
  refine le_foldl_of_step (fun acc s hs => ?_) 0
  by_cases h1 : s.speaker = mgr
  · simp [h1]
  · by_cases h2 : s.speaker = mem
    · simp only [h1, if_neg, h2, if_pos, if_false]
      split_ifs
      · exact le_refl _
      · exact le_add_of_nonneg_right (h s hs)
    · simp [h1, h2]

lemma valid_duration_nonneg {data : WhisperTranscription}
    (hv : ValidTranscription data) :
    ∀ s ∈ sortSegments data.segments, 0 ≤ s.duration := by
  intro s hs
  rw [sortSegments, List.mem_insertionSort] at hs
  have := (hv.2 s hs).2.1
  simpa [SpeechSegment.duration] using sub_nonneg.mpr this

end SpeechAnalyzer

end OneOnOne
namespace OneOnOne

/-- C2: on the six concrete segments with total_duration = 30 the analyzer returns
manager_speaking_time 9, member_speaking_time 11.2, total_silence_time 3.3,
silence_percentage 11, three turns each, manager average 3, and the exact ratios
45/101, 56/101 and member average 56/15, which are within 10^-4 (resp. 10^-3) of
the approximate values 0.4455, 0.5545 and 3.733 stated by the spec. -/
theorem timing_example_values :
    SpeechAnalyzer.calculate
      { segments :=
          [⟨"manager", "", 0, 3.5⟩, ⟨"member", "", 4, 5.2⟩, ⟨"manager", "", 6, 9⟩,
            ⟨"member", "", 9.5, 14⟩, ⟨"manager", "", 15, 17.5⟩, ⟨"member", "", 18, 23.5⟩],
        total_duration := some 30 } =
      .ok
        { manager_speaking_time := 9
          member_speaking_time := 11.2
          total_speaking_time := 20.2
          total_silence_time := 3.3
          silence_percentage := 11
          manager_speaking_ratio := 45 / 101
          member_speaking_ratio := 56 / 101
          manager_turn_count := 3
          member_turn_count := 3
          total_turns := 6
          manager_avg_segment_duration := 3
          member_avg_segment_duration := 56 / 15
          meeting_duration := 30 } ∧
      |45 / 101 - (0.4455 : ℚ)| < 1 / 10000 ∧
      |56 / 101 - (0.5545 : ℚ)| < 1 / 10000 ∧
      |56 / 15 - (3.733 : ℚ)| < 1 / 1000 := by
  refine ⟨?_, by rw [abs_sub_lt_iff]; norm_num, by rw [abs_sub_lt_iff]; norm_num,
    by rw [abs_sub_lt_iff]; norm_num⟩
  norm_num [SpeechAnalyzer.calculate, SpeechAnalyzer.validate_input,
    SpeechAnalyzer.validateSegments, SpeechAnalyzer.computeResult,
    SpeechAnalyzer.sortSegments, List.insertionSort, List.orderedInsert,
    SpeechAnalyzer.managerTime, SpeechAnalyzer.memberTime,
    SpeechAnalyzer.managerTurns, SpeechAnalyzer.memberTurns,
    SpeechAnalyzer.silenceTime, SpeechAnalyzer.lastEndTime,
    SpeechAnalyzer.meetingDuration, SpeechSegment.duration]
  have hmm : ¬ ("member" = "manager") := by decide
  simp only [if_neg hmm]
  norm_num

/-- C6: the analyzer rejects an input with a validation error exactly when the
segment list is empty, some start_time is negative, some end_time precedes its
start_time, or some speaker differs from both configured identifiers; on every
input satisfying all four conditions no error is raised and a result is
produced. -/
theorem timing_validation_iff (data : WhisperTranscription) :
    ((∃ e, SpeechAnalyzer.validate_input data = .error e) ↔
        ¬ SpeechAnalyzer.ValidTranscription data) ∧
      ((∃ r, SpeechAnalyzer.calculate data = .ok r) ↔
        SpeechAnalyzer.ValidTranscription data) := by
  constructor
  · constructor
    · rintro ⟨e, he⟩ hv
      rw [← SpeechAnalyzer.validate_input_ok_iff] at hv
      rw [he] at hv
      exact absurd hv (by simp)
    · intro hv
      rcases h : SpeechAnalyzer.validate_input data with e | u
      · exact ⟨e, rfl⟩
      · obtain rfl : u = () := rfl
        exact absurd ((SpeechAnalyzer.validate_input_ok_iff data).mp h) hv
  · constructor
    · rintro ⟨r, hr⟩
      exact ((SpeechAnalyzer.calculate_ok_iff data r).mp hr).1
    · intro hv
      exact ⟨SpeechAnalyzer.computeResult data,
        (SpeechAnalyzer.calculate_ok_iff data _).mpr ⟨hv, rfl⟩⟩

end OneOnOne
namespace OneOnOne

/-- C5 counterexample: with one segment (manager, 0, 5) and an explicitly
supplied total_duration override of 0, `calculate` sets meeting_duration to the
last segment's end time 5, not to the supplied override 0 — `if data.total_duration:`
is Python truthiness, so a present-but-zero override is treated as absent. -/
theorem meeting_duration_zero_override_cx :
    (SpeechAnalyzer.calculate
          { segments := [⟨"manager", "hello", 0, 5⟩], total_duration := some 0 }).map
        (fun r => r.meeting_duration) = .ok 5 ∧
      (SpeechAnalyzer.calculate
            { segments := [⟨"manager", "hello", 0, 5⟩], total_duration := some 0 }).map
          (fun r => r.meeting_duration) ≠ .ok 0 := by
  have h : SpeechAnalyzer.calculate
      { segments := [⟨"manager", "hello", 0, 5⟩], total_duration := some 0 } =
      .ok
        { manager_speaking_time := 5
          member_speaking_time := 0
          total_speaking_time := 5
          total_silence_time := 0
          silence_percentage := 0
          manager_speaking_ratio := 1
          member_speaking_ratio := 0
          manager_turn_count := 1
          member_turn_count := 0
          total_turns := 1
          manager_avg_segment_duration := 5
          member_avg_segment_duration := 0
          meeting_duration := 5 } := by
    norm_num [SpeechAnalyzer.calculate, SpeechAnalyzer.validate_input,
      SpeechAnalyzer.validateSegments, SpeechAnalyzer.computeResult,
      SpeechAnalyzer.sortSegments, List.insertionSort, List.orderedInsert,
      SpeechAnalyzer.managerTime, SpeechAnalyzer.memberTime,
      SpeechAnalyzer.managerTurns, SpeechAnalyzer.memberTurns,
      SpeechAnalyzer.silenceTime, SpeechAnalyzer.lastEndTime,
      SpeechAnalyzer.meetingDuration, SpeechSegment.duration]
  rw [h]
  constructor
  · rfl
  · intro hc
    simp only [Except.map, Except.ok.injEq] at hc
    exact absurd hc (by norm_num)

/-- C5 (amended): meeting_duration equals the supplied override when one is
present and nonzero; a missing or zero override falls back to the end_time of
the last segment in start_time-sorted order.  silence_percentage is
total_silence_time / meeting_duration * 100 when the meeting duration is
positive and 0 otherwise. -/
theorem meeting_duration_rule (data : WhisperTranscription) (r : SpeechAnalysisResult)
    (h : SpeechAnalyzer.calculate data = .ok r) :
    r.meeting_duration =
        (match data.total_duration with
          | some d =>
            if d ≠ 0 then d
            else SpeechAnalyzer.lastEndTime (SpeechAnalyzer.sortSegments data.segments)
          | none => SpeechAnalyzer.lastEndTime (SpeechAnalyzer.sortSegments data.segments)) ∧
      r.silence_percentage =
        (if 0 < r.meeting_duration then r.total_silence_time / r.meeting_duration * 100
          else 0) := by
  obtain ⟨hv, rfl⟩ := (SpeechAnalyzer.calculate_ok_iff data r).mp h
  constructor
  · rfl
  · rfl

/-- Witness for the amended C5 theorem at a concrete one-segment transcript
with a nonzero override of 30. -/
theorem meeting_duration_rule_witness :
    (SpeechAnalyzer.computeResult
          { segments := [⟨"manager", "hi", 1, 2⟩], total_duration := some 30 }).meeting_duration =
        (match ({ segments := [⟨"manager", "hi", 1, 2⟩], total_duration := some 30 } :
              WhisperTranscription).total_duration with
          | some d =>
            if d ≠ 0 then d
            else SpeechAnalyzer.lastEndTime (SpeechAnalyzer.sortSegments
              ({ segments := [⟨"manager", "hi", 1, 2⟩], total_duration := some 30 } :
                WhisperTranscription).segments)
          | none => SpeechAnalyzer.lastEndTime (SpeechAnalyzer.sortSegments
              ({ segments := [⟨"manager", "hi", 1, 2⟩], total_duration := some 30 } :
                WhisperTranscription).segments)) ∧
      (SpeechAnalyzer.computeResult
            { segments := [⟨"manager", "hi", 1, 2⟩], total_duration := some 30 }).silence_percentage =
        (if 0 < (SpeechAnalyzer.computeResult
              { segments := [⟨"manager", "hi", 1, 2⟩], total_duration := some 30 }).meeting_duration
          then (SpeechAnalyzer.computeResult
                { segments := [⟨"manager", "hi", 1, 2⟩],
                  total_duration := some 30 }).total_silence_time /
              (SpeechAnalyzer.computeResult
                  { segments := [⟨"manager", "hi", 1, 2⟩],
                    total_duration := some 30 }).meeting_duration *
              100
          else 0) :=
  meeting_duration_rule
    { segments := [⟨"manager", "hi", 1, 2⟩], total_duration := some 30 }
    (SpeechAnalyzer.computeResult
      { segments := [⟨"manager", "hi", 1, 2⟩], total_duration := some 30 })
    ((SpeechAnalyzer.calculate_ok_iff _ _).mpr
      ⟨⟨by simp, by
          intro s hs
          simp only [List.mem_singleton] at hs
          subst hs
          norm_num⟩, rfl⟩)

end OneOnOne
namespace OneOnOne

/-- C10: for every accepted transcript both speaking ratios lie in [0,1]; under
the exact rational arithmetic of this model their sum is exactly 1 whenever
total_speaking_time is positive, and both are 0 when total_speaking_time is 0. -/
theorem speaking_ratio_invariants (data : WhisperTranscription) (r : SpeechAnalysisResult)
    (h : SpeechAnalyzer.calculate data = .ok r) :
    (0 ≤ r.manager_speaking_ratio ∧ r.manager_speaking_ratio ≤ 1) ∧
      (0 ≤ r.member_speaking_ratio ∧ r.member_speaking_ratio ≤ 1) ∧
      (0 < r.total_speaking_time →
        r.manager_speaking_ratio + r.member_speaking_ratio = 1) ∧
      (r.total_speaking_time = 0 →
        r.manager_speaking_ratio = 0 ∧ r.member_speaking_ratio = 0) := by
  obtain ⟨hv, rfl⟩ := (SpeechAnalyzer.calculate_ok_iff data r).mp h
  have hd := SpeechAnalyzer.valid_duration_nonneg hv
  simp only [SpeechAnalyzer.computeResult]
  set l := SpeechAnalyzer.sortSegments data.segments with hl
  set mt := SpeechAnalyzer.managerTime data.manager_identifier l with hmtdef
  set et := SpeechAnalyzer.memberTime data.manager_identifier data.member_identifier l
    with hetdef
  have hmt : 0 ≤ mt := SpeechAnalyzer.managerTime_nonneg hd
  have het : 0 ≤ et := SpeechAnalyzer.memberTime_nonneg hd
  by_cases hpos : 0 < mt + et
  · rw [if_pos hpos, if_pos hpos]
    have hne : mt + et ≠ 0 := ne_of_gt hpos
    refine ⟨⟨div_nonneg hmt (le_of_lt hpos), ?_⟩,
      ⟨div_nonneg het (le_of_lt hpos), ?_⟩, fun _ => ?_, fun hz => absurd hz hne⟩
    · exact div_le_one_of_le₀ (le_add_of_nonneg_right het) (le_of_lt hpos)
    · exact div_le_one_of_le₀ (le_add_of_nonneg_left hmt) (le_of_lt hpos)
    · rw [div_add_div_same, div_self hne]
  · rw [if_neg hpos, if_neg hpos]
    norm_num
    exact not_lt.mp hpos

/-- Witness for C10 at a concrete one-segment transcript. -/
theorem speaking_ratio_invariants_witness :
    (0 ≤ (SpeechAnalyzer.computeResult
            { segments := [⟨"manager", "ok", 0, 2⟩] }).manager_speaking_ratio ∧
        (SpeechAnalyzer.computeResult
            { segments := [⟨"manager", "ok", 0, 2⟩] }).manager_speaking_ratio ≤ 1) ∧
      (0 ≤ (SpeechAnalyzer.computeResult
              { segments := [⟨"manager", "ok", 0, 2⟩] }).member_speaking_ratio ∧
        (SpeechAnalyzer.computeResult
            { segments := [⟨"manager", "ok", 0, 2⟩] }).member_speaking_ratio ≤ 1) ∧
      (0 < (SpeechAnalyzer.computeResult
              { segments := [⟨"manager", "ok", 0, 2⟩] }).total_speaking_time →
        (SpeechAnalyzer.computeResult
              { segments := [⟨"manager", "ok", 0, 2⟩] }).manager_speaking_ratio +
            (SpeechAnalyzer.computeResult
                { segments := [⟨"manager", "ok", 0, 2⟩] }).member_speaking_ratio = 1) ∧
      ((SpeechAnalyzer.computeResult
              { segments := [⟨"manager", "ok", 0, 2⟩] }).total_speaking_time = 0 →
        (SpeechAnalyzer.computeResult
              { segments := [⟨"manager", "ok", 0, 2⟩] }).manager_speaking_ratio = 0 ∧
          (SpeechAnalyzer.computeResult
              { segments := [⟨"manager", "ok", 0, 2⟩] }).member_speaking_ratio = 0) :=
  speaking_ratio_invariants { segments := [⟨"manager", "ok", 0, 2⟩] }
    (SpeechAnalyzer.computeResult { segments := [⟨"manager", "ok", 0, 2⟩] })
    ((SpeechAnalyzer.calculate_ok_iff _ _).mpr
      ⟨⟨by simp, by
          intro s hs
          simp only [List.mem_singleton] at hs
          subst hs
          norm_num⟩, rfl⟩)

end OneOnOne
namespace OneOnOne

/-- Input model (`GoalAlignmentInput`). -/
structure GoalAlignmentInput where
  goal_text : String
  conversation_transcript : String
  language : String := "ko"
deriving DecidableEq, Repr

/-- A matched topic (`TopicMatch`). -/
structure TopicMatch where
  keyword : String
  goal_frequency : ℕ
  conversation_frequency : ℕ
  relevance_score : ℚ
deriving DecidableEq, Repr

/-- Output model (`GoalAlignmentResult`). -/
structure GoalAlignmentResult where
  alignment_score : ℚ
  matched_topics : List TopicMatch
  matched_topic_count : ℕ
  goal_keywords : List String
  conversation_keywords : List String
  goal_coverage : ℚ
  is_aligned : Bool
  alignment_category : String
  missing_topics : List String
deriving DecidableEq, Repr

namespace GoalAlignmentCalculator

def MIN_KEYWORD_LENGTH : ℕ := 2

def MAX_KEYWORDS : ℕ := 30

/-- `STOP_WORDS_KO` (the source set literal repeats "및"; harmless for membership). -/
def STOP_WORDS_KO : List String :=
  ["이", "그", "저", "것", "수", "등", "들", "및", "에", "을", "를", "이를",
    "위해", "통해", "대한", "있는", "하는", "되는", "같은", "있다", "한다",
    "많은", "다른", "새로운", "그리고", "하지만", "그러나", "또한", "및"]

def STOP_WORDS_EN : List String :=
  ["the", "is", "at", "which", "on", "a", "an", "as", "are", "was", "were",
    "be", "been", "being", "have", "has", "had", "do", "does", "did",
    "will", "would", "should", "could", "may", "might", "must", "can",
    "and", "or", "but", "if", "then", "else", "when", "where", "how", "why"]

/-- `self.stop_words = STOP_WORDS_KO | STOP_WORDS_EN` (membership-equivalent list). -/
def stop_words : List String := STOP_WORDS_KO ++ STOP_WORDS_EN

/-- ASCII lowering; `str.lower()` agrees with this on every character the
keyword regex can keep (Hangul has no case, Latin keywords are a-z). -/
def pyLowerChar (c : Char) : Char :=
  if 'A' ≤ c ∧ c ≤ 'Z' then Char.ofNat (c.toNat + 32) else c

def pyLower (s : String) : String := String.mk (s.toList.map pyLowerChar)

/-- Membership in the regex class `[가-힣]`. -/
def isHangulChar (c : Char) : Bool := 0xAC00 ≤ c.toNat ∧ c.toNat ≤ 0xD7A3

/-- Membership in the regex class `[a-z]`. -/
def isLatinLower (c : Char) : Bool := 'a' ≤ c ∧ c ≤ 'z'

/-- `re.findall(r'[가-힣]+|[a-z]+', text)`: maximal runs of one script class,
every other character separating.  Fuel-driven recursion; one character is
consumed per step, so fuel = length of the text suffices. -/
def findWordsAux : ℕ → List Char → List String
  | 0, _ => []
  | _ + 1, [] => []
  | fuel + 1, c :: cs =>
    if isHangulChar c then
      String.mk (c :: cs.takeWhile isHangulChar) ::
        findWordsAux fuel (cs.dropWhile isHangulChar)
    else if isLatinLower c then
      String.mk (c :: cs.takeWhile isLatinLower) ::
        findWordsAux fuel (cs.dropWhile isLatinLower)
    else
      findWordsAux fuel cs

def findWords (s : String) : List String := findWordsAux s.toList.length s.toList

/-- The insertion (first-seen) order of `collections.Counter` keys. -/
def firstSeen (l : List String) : List String :=
  l.foldl (fun acc w => if w ∈ acc then acc else acc ++ [w]) []

/-- Frequency of one word in the filtered word list. -/
def countOcc (l : List String) (w : String) : ℕ := (l.filter (fun x => x = w)).length

/-- `Counter(filtered_words).most_common(MAX_KEYWORDS)` key order: frequencies
descending, ties kept in first-seen order (`heapq.nlargest` is stable), modelled
with the stable `insertionSort`. -/
def topKeywords (l : List String) : List String :=
  ((firstSeen l).insertionSort (fun a b => countOcc l b ≤ countOcc l a)).take MAX_KEYWORDS

/-- `GoalAlignmentCalculator._extract_keywords`. -/
def extract_keywords (text : String) : List String :=
  let normalized := pyLower text
  let words := findWords normalized
  let filtered := words.filter
    (fun w => decide (MIN_KEYWORD_LENGTH ≤ w.length ∧ w ∉ stop_words))
  topKeywords filtered

/-- Non-overlapping substring count, as Python's `str.count`. -/
def countSubAux : ℕ → List Char → List Char → ℕ
  | 0, _, _ => 0
  | _ + 1, _, [] => 0
  | fuel + 1, pat, c :: cs =>
    if pat.isPrefixOf (c :: cs) then
      1 + countSubAux fuel pat ((c :: cs).drop pat.length)
    else
      countSubAux fuel pat cs

def countSubstring (text pat : String) : ℕ :=
  countSubAux text.toList.length pat.toList text.toList

/-- `1.0 - keywords.index(keyword) / len(keywords) if keyword in keywords else 0.0`. -/
def positionScore (keyword : String) (keywords : List String) : ℚ :=
  if keyword ∈ keywords then
    1 - ((keywords.indexOf keyword : ℕ) : ℚ) / (keywords.length : ℚ)
  else 0

/-- One `TopicMatch` of `_find_matched_topics`'s loop body. -/
def mkTopicMatch (gk ck : List String) (goalLower convLower : String)
    (keyword : String) : TopicMatch :=
  let goal_freq := countSubstring goalLower keyword
  let conv_freq := countSubstring convLower keyword
  let relevance :=
    (positionScore keyword gk + positionScore keyword ck) / 2 *
      min 1 (((goal_freq : ℚ) + (conv_freq : ℚ)) / 10)
  ⟨keyword, goal_freq, conv_freq, relevance⟩

/-- `GoalAlignmentCalculator._find_matched_topics`.  The Python loop iterates
the unordered set `set(goal_keywords) & set(conversation_keywords)`; since the
extracted keyword lists are duplicate-free, that set is modelled as the
goal-keyword-ordered list of shared keywords (the final relevance-descending
stable sort makes the list order agree up to relevance ties, and no claim
depends on the tie order). -/
def find_matched_topics (gk ck : List String) (goal_text conversation_text : String) :
    List TopicMatch :=
  let common := gk.filter (fun w => ck.contains w)
  let matchList := common.map (mkTopicMatch gk ck (pyLower goal_text) (pyLower conversation_text))
  matchList.insertionSort (fun a b => b.relevance_score ≤ a.relevance_score)

/-- `GoalAlignmentCalculator._calculate_alignment_score`. -/
def calculate_alignment_score (matched : List TopicMatch) (gk : List String) : ℚ :=
  if gk = [] then 0
  else if matched = [] then 0
  else
    let total_relevance := (matched.map (fun t => t.relevance_score)).sum
    let coverage_factor := (matched.length : ℚ) / (gk.length : ℚ)
    let quality_factor := total_relevance / (matched.length : ℚ)
    min 1 (max 0 (0.6 * quality_factor + 0.4 * coverage_factor))

/-- `GoalAlignmentCalculator._calculate_goal_coverage`. -/
def calculate_goal_coverage (gk ck : List String) : ℚ :=
  if gk = [] then 0
  else ((gk.filter (fun w => ck.contains w)).dedup.length : ℚ) / (gk.length : ℚ)

/-- `GoalAlignmentCalculator._categorize_alignment`. -/
def categorize_alignment (s : ℚ) : String :=
  if s ≥ 0.7 then "high"
  else if s ≥ 0.4 then "medium"
  else if s ≥ 0.15 then "low"
  else "none"

/-- `is_aligned = alignment_score >= 0.3` as the boolean stored in the result. -/
def is_aligned_flag (s : ℚ) : Bool := if s ≥ 0.3 then true else false

/-- `GoalAlignmentCalculator._find_missing_topics`. -/
def find_missing_topics (gk ck : List String) : List String :=
  (gk.filter (fun w => !(ck.contains w))).take 5

/-- The whitespace characters `str.strip()` removes (ASCII part). -/
def isPySpace (c : Char) : Bool :=
  c = ' ' ∨ c = '\t' ∨ c = '\n' ∨ c = '\r' ∨ c = '\x0b' ∨ c = '\x0c'

/-- Python `str.strip()` at the character level. -/
def pyStrip (s : String) : String :=
  String.mk (((s.toList.dropWhile isPySpace).reverse.dropWhile isPySpace).reverse)

/-- `GoalAlignmentCalculator.validate_input`. -/
def validate_input (data : GoalAlignmentInput) : Except String Unit :=
  if data.goal_text = "" ∨ pyStrip data.goal_text = "" then
    .error "Goal text cannot be empty"
  else if data.conversation_transcript = "" ∨ pyStrip data.conversation_transcript = "" then
    .error "Conversation transcript cannot be empty"
  else if data.goal_text.length < 10 then
    .error "Goal text is too short (minimum 10 characters)"
  else if data.conversation_transcript.length < 20 then
    .error "Conversation transcript is too short (minimum 20 characters)"
  else
    .ok ()

/-- The computation part of `GoalAlignmentCalculator.calculate` after validation. -/
def computeAlignment (data : GoalAlignmentInput) : GoalAlignmentResult :=
  let gk := extract_keywords data.goal_text
  let ck := extract_keywords data.conversation_transcript
  let matched := find_matched_topics gk ck data.goal_text data.conversation_transcript
  let score := calculate_alignment_score matched gk
  { alignment_score := score
    matched_topics := matched
    matched_topic_count := matched.length
    goal_keywords := gk
    conversation_keywords := ck
    goal_coverage := calculate_goal_coverage gk ck
    is_aligned := is_aligned_flag score
    alignment_category := categorize_alignment score
    missing_topics := find_missing_topics gk ck }

/-- `GoalAlignmentCalculator.calculate`. -/
def calculate (data : GoalAlignmentInput) : Except String GoalAlignmentResult :=
  match validate_input data with
  | .error e => .error e
  | .ok _ => .ok (computeAlignment data)

lemma alignment_calculate_ok_iff (data : GoalAlignmentInput) (r : GoalAlignmentResult) :
    calculate data = .ok r ↔
      validate_input data = .ok () ∧ r = computeAlignment data := by
  unfold calculate
  rcases hv : validate_input data with e | u
  · exact iff_of_false (by simp) (fun h => by simp at h)
  · obtain rfl : u = () := rfl
    constructor
    · intro h
      injection h with h
      exact ⟨rfl, h.symm⟩
    · rintro ⟨-, rfl⟩
      rfl

end GoalAlignmentCalculator

end OneOnOne
namespace OneOnOne

open GoalAlignmentCalculator in
/-- C3: for every accepted GoalAlignmentInput the alignment score is
0.6 times the average relevance of the matched topics plus 0.4 times
(matched count / number of goal keywords), clamped to [0,1]; it is 0 when
there are no goal keywords or no matches; and when the two keyword lists
share nothing, the matched count is 0 and missing_topics is the first five
goal keywords in extraction order. -/
theorem alignment_score_definition (data : GoalAlignmentInput) (r : GoalAlignmentResult)
    (h : GoalAlignmentCalculator.calculate data = .ok r) :
    ((extract_keywords data.goal_text ≠ [] →
        find_matched_topics (extract_keywords data.goal_text)
            (extract_keywords data.conversation_transcript) data.goal_text
            data.conversation_transcript ≠ [] →
        r.alignment_score =
          min 1 (max 0
            (0.6 *
                (((find_matched_topics (extract_keywords data.goal_text)
                        (extract_keywords data.conversation_transcript) data.goal_text
                        data.conversation_transcript).map
                      (fun t => t.relevance_score)).sum /
                  ((find_matched_topics (extract_keywords data.goal_text)
                        (extract_keywords data.conversation_transcript) data.goal_text
                        data.conversation_transcript).length : ℚ)) +
              0.4 *
                (((find_matched_topics (extract_keywords data.goal_text)
                        (extract_keywords data.conversation_transcript) data.goal_text
                        data.conversation_transcript).length : ℚ) /
                  ((extract_keywords data.goal_text).length : ℚ))))) ∧
      (extract_keywords data.goal_text = [] ∨
          find_matched_topics (extract_keywords data.goal_text)
              (extract_keywords data.conversation_transcript) data.goal_text
              data.conversation_transcript = [] →
        r.alignment_score = 0)) ∧
    ((∀ k ∈ extract_keywords data.goal_text,
        k ∉ extract_keywords data.conversation_transcript) →
      r.matched_topic_count = 0 ∧
        r.missing_topics = (extract_keywords data.goal_text).take 5) := by
  obtain ⟨hv, rfl⟩ := (GoalAlignmentCalculator.alignment_calculate_ok_iff data r).mp h
  simp only [GoalAlignmentCalculator.computeAlignment]
  refine ⟨⟨fun hgk hm => ?_, fun hz => ?_⟩, fun hdisj => ?_⟩
  · unfold calculate_alignment_score
    rw [if_neg hgk, if_neg hm]
  · unfold calculate_alignment_score
    rcases hz with hgk | hm
    · rw [if_pos hgk]
    · by_cases hgk : extract_keywords data.goal_text = []
      · rw [if_pos hgk]
      · rw [if_neg hgk, if_pos hm]
  · have hcommon :
        (extract_keywords data.goal_text).filter
            (fun w => (extract_keywords data.conversation_transcript).contains w) = [] := by
      refine List.filter_eq_nil_iff.mpr (fun k hk => ?_)
      simpa [List.elem_iff] using hdisj k hk
    have hm : find_matched_topics (extract_keywords data.goal_text)
        (extract_keywords data.conversation_transcript) data.goal_text
        data.conversation_transcript = [] := by
      unfold find_matched_topics
      rw [hcommon]
      rfl
    refine ⟨by rw [hm]; rfl, ?_⟩
    unfold find_missing_topics
    have hfilter : (extract_keywords data.goal_text).filter
        (fun w => !((extract_keywords data.conversation_transcript).contains w)) =
        extract_keywords data.goal_text := by
      refine List.filter_eq_self.mpr (fun k hk => ?_)
      simpa [List.elem_iff] using hdisj k hk
    rw [hfilter]

open GoalAlignmentCalculator in
/-- Witness for C3 at a concrete input whose goal and conversation share no
extracted keyword. -/
theorem alignment_score_definition_witness :
    ((extract_keywords "improve python skills deeply" ≠ [] →
        find_matched_topics (extract_keywords "improve python skills deeply")
            (extract_keywords "we discussed vacation timing and budget today")
            "improve python skills deeply"
            "we discussed vacation timing and budget today" ≠ [] →
        (computeAlignment
              ⟨"improve python skills deeply",
                "we discussed vacation timing and budget today", "ko"⟩).alignment_score =
          min 1 (max 0
            (0.6 *
                (((find_matched_topics (extract_keywords "improve python skills deeply")
                        (extract_keywords "we discussed vacation timing and budget today")
                        "improve python skills deeply"
                        "we discussed vacation timing and budget today").map
                      (fun t => t.relevance_score)).sum /
                  ((find_matched_topics (extract_keywords "improve python skills deeply")
                        (extract_keywords "we discussed vacation timing and budget today")
                        "improve python skills deeply"
                        "we discussed vacation timing and budget today").length : ℚ)) +
              0.4 *
                (((find_matched_topics (extract_keywords "improve python skills deeply")
                        (extract_keywords "we discussed vacation timing and budget today")
                        "improve python skills deeply"
                        "we discussed vacation timing and budget today").length : ℚ) /
                  ((extract_keywords "improve python skills deeply").length : ℚ))))) ∧
      (extract_keywords "improve python skills deeply" = [] ∨
          find_matched_topics (extract_keywords "improve python skills deeply")
              (extract_keywords "we discussed vacation timing and budget today")
              "improve python skills deeply"
              "we discussed vacation timing and budget today" = [] →
        (computeAlignment
              ⟨"improve python skills deeply",
                "we discussed vacation timing and budget today", "ko"⟩).alignment_score = 0)) ∧
    ((∀ k ∈ extract_keywords "improve python skills deeply",
        k ∉ extract_keywords "we discussed vacation timing and budget today") →
      (computeAlignment
            ⟨"improve python skills deeply",
              "we discussed vacation timing and budget today", "ko"⟩).matched_topic_count = 0 ∧
        (computeAlignment
              ⟨"improve python skills deeply",
                "we discussed vacation timing and budget today", "ko"⟩).missing_topics =
          (extract_keywords "improve python skills deeply").take 5) :=
  alignment_score_definition
    ⟨"improve python skills deeply", "we discussed vacation timing and budget today", "ko"⟩
    (computeAlignment
      ⟨"improve python skills deeply", "we discussed vacation timing and budget today", "ko"⟩)
    ((GoalAlignmentCalculator.alignment_calculate_ok_iff _ _).mpr ⟨by decide, rfl⟩)

end OneOnOne
namespace OneOnOne

namespace GoalAlignmentCalculator

/-- Ordinal rank of the categories, `none < low < medium < high` (spec-side). -/
def categoryRank (c : String) : ℕ :=
  if c = "high" then 3 else if c = "medium" then 2 else if c = "low" then 1 else 0

lemma categoryRank_categorize (s : ℚ) :
    categoryRank (categorize_alignment s) =
      if 0.7 ≤ s then 3 else if 0.4 ≤ s then 2 else if 0.15 ≤ s then 1 else 0 := by
  unfold categorize_alignment
  split_ifs with h7 h4 h15 <;> rfl

end GoalAlignmentCalculator

open GoalAlignmentCalculator in
/-- C7: the alignment category is high iff the score is at least 0.7, medium iff
in [0.4, 0.7), low iff in [0.15, 0.4), none otherwise; the aligned flag holds
iff the score is at least 0.3; and the category rank (none < low < medium <
high) is a non-decreasing function of the score. -/
theorem alignment_category_spec (s : ℚ) (h0 : 0 ≤ s) (h1 : s ≤ 1) :
    ((categorize_alignment s = "high" ↔ 0.7 ≤ s) ∧
      (categorize_alignment s = "medium" ↔ 0.4 ≤ s ∧ s < 0.7) ∧
      (categorize_alignment s = "low" ↔ 0.15 ≤ s ∧ s < 0.4) ∧
      (categorize_alignment s = "none" ↔ s < 0.15)) ∧
    (is_aligned_flag s = true ↔ 0.3 ≤ s) ∧
    (∀ t : ℚ, s ≤ t →
      categoryRank (categorize_alignment s) ≤ categoryRank (categorize_alignment t)) := by
  refine ⟨?_, ?_, ?_⟩
  · unfold categorize_alignment
    split_ifs with h7 h4 h15
    · exact ⟨iff_of_true rfl h7,
        iff_of_false (by decide) (fun hc => absurd h7 (not_le.mpr hc.2)),
        iff_of_false (by decide) (fun hc => absurd h7 (not_le.mpr (hc.2.trans (by norm_num)))),
        iff_of_false (by decide) (fun hc => absurd h7 (not_le.mpr (hc.trans_le (by norm_num))))⟩
    · exact ⟨iff_of_false (by decide) (fun hc => absurd hc h7),
        iff_of_true rfl ⟨h4, not_le.mp h7⟩,
        iff_of_false (by decide) (fun hc => absurd h4 (not_le.mpr hc.2)),
        iff_of_false (by decide) (fun hc => absurd h4 (not_le.mpr (hc.trans_le (by norm_num))))⟩
    · exact ⟨iff_of_false (by decide) (fun hc => absurd hc h7),
        iff_of_false (by decide) (fun hc => absurd hc.1 h4),
        iff_of_true rfl ⟨h15, not_le.mp h4⟩,
        iff_of_false (by decide) (fun hc => absurd h15 (not_le.mpr hc))⟩
    · exact ⟨iff_of_false (by decide) (fun hc => absurd hc h7),
        iff_of_false (by decide) (fun hc => absurd hc.1 h4),
        iff_of_false (by decide) (fun hc => absurd hc.1 h15),
        iff_of_true rfl (not_le.mp h15)⟩
  · unfold is_aligned_flag
    split_ifs with h3
    · exact iff_of_true rfl h3
    · exact iff_of_false (by decide) h3
  · intro t hst
    rw [categoryRank_categorize, categoryRank_categorize]
    split_ifs <;> first | omega | linarith

open GoalAlignmentCalculator in
/-- Witness for C7 at the concrete score 1. -/
theorem alignment_category_spec_witness :
    ((categorize_alignment 1 = "high" ↔ (0.7 : ℚ) ≤ 1) ∧
      (categorize_alignment 1 = "medium" ↔ (0.4 : ℚ) ≤ 1 ∧ (1 : ℚ) < 0.7) ∧
      (categorize_alignment 1 = "low" ↔ (0.15 : ℚ) ≤ 1 ∧ (1 : ℚ) < 0.4) ∧
      (categorize_alignment 1 = "none" ↔ (1 : ℚ) < 0.15)) ∧
    (is_aligned_flag 1 = true ↔ (0.3 : ℚ) ≤ 1) ∧
    (∀ t : ℚ, 1 ≤ t →
      categoryRank (categorize_alignment 1) ≤ categoryRank (categorize_alignment t)) :=
  alignment_category_spec 1 zero_le_one (le_refl 1)

end OneOnOne
namespace OneOnOne

/-- `StyleExample` (coaching_style_calculator.py). -/
structure StyleExample where
  text : String
  style : String
  reason : String
deriving DecidableEq, Repr

/-- `CoachingStyleResult` (coaching_style_calculator.py). -/
structure CoachingStyleResult where
  directive_score : ℚ
  coaching_score : ℚ
  balance_assessment : String
  key_examples : List StyleExample
  improvement_feedback : String
deriving DecidableEq, Repr

/-- `SafetyIndicator` (safety_score_calculator.py). -/
structure SafetyIndicator where
  category : String
  description : String
  quote : Option String
  impact : String
deriving DecidableEq, Repr

/-- `SafetyScoreResult` (safety_score_calculator.py). -/
structure SafetyScoreResult where
  safety_score : ℤ
  score_rationale : String
  positive_factors : List SafetyIndicator
  risk_factors : List SafetyIndicator
  manager_behavior_analysis : String
deriving DecidableEq, Repr

/-- `RadarChartPoint` (report_formatter.py). -/
structure RadarChartPoint where
  subject : String
  A : ℚ
  fullMark : ℕ := 100
deriving DecidableEq, Repr

/-- `TimelinePoint` (report_formatter.py). -/
structure TimelinePoint where
  time : String
  value : ℚ
  speaker : String
deriving DecidableEq, Repr

/-- `WordCloudItem` (report_formatter.py). -/
structure WordCloudItem where
  text : String
  value : ℤ
deriving DecidableEq, Repr

/-- `ManagerReportResponse` (report_formatter.py). -/
structure ManagerReportResponse where
  radar_chart : List RadarChartPoint
  timeline_data : List TimelinePoint
  coaching_score : ℚ
  safety_score : ℤ
  talk_ratio : ℚ
  feedback : String
deriving DecidableEq, Repr

/-- `MemberReportResponse` (report_formatter.py). -/
structure MemberReportResponse where
  word_cloud : List WordCloudItem
  alignment_score : ℚ
  alignment_category : String
  action_items : List String
  meeting_duration : ℚ
  total_turns : ℕ
deriving DecidableEq, Repr

namespace ReportFormatter

/-- Python `int()` on a float: truncation toward zero. -/
def pyInt (q : ℚ) : ℤ := if 0 ≤ q then ⌊q⌋ else ⌈q⌉

/-- ASCII uppercasing; `str.upper()` agrees on the category strings produced by
the pipeline. -/
def pyUpperChar (c : Char) : Char :=
  if 'a' ≤ c ∧ c ≤ 'z' then Char.ofNat (c.toNat - 32) else c

def pyUpper (s : String) : String := String.mk (s.toList.map pyUpperChar)

/-- `ReportFormatter.format_manager_report`. -/
def format_manager_report (speech_result : SpeechAnalysisResult)
    (style_result : CoachingStyleResult) (safety_result : SafetyScoreResult)
    (goal_result : GoalAlignmentResult) : ManagerReportResponse :=
  let listening_raw := speech_result.member_speaking_ratio * 100
  let listening_score := min 100 (listening_raw * 1.5)
  let balance_ratio :=
    max speech_result.manager_speaking_ratio speech_result.member_speaking_ratio
  let stability_raw := 100 - max 0 (balance_ratio - 0.5) * 200
  let stability_score := max 0 (min 100 stability_raw)
  { radar_chart :=
      [⟨"경청(Listening)", (pyInt listening_score : ℚ), 100⟩,
        ⟨"질문(Questioning)", (pyInt style_result.coaching_score : ℚ), 100⟩,
        ⟨"심리적 안전감", (safety_result.safety_score : ℚ), 100⟩,
        ⟨"목표 정렬", (pyInt (goal_result.alignment_score * 100) : ℚ), 100⟩,
        ⟨"대화 균형", (pyInt stability_score : ℚ), 100⟩]
    timeline_data := []
    coaching_score := style_result.coaching_score
    safety_score := safety_result.safety_score
    talk_ratio := speech_result.manager_speaking_ratio
    feedback := style_result.improvement_feedback }

/-- The word-cloud seed: `for kw in goal_result.conversation_keywords[:15]`. -/
def seedCloud (ck : List String) : List WordCloudItem :=
  (ck.take 15).map (fun kw => ⟨kw, 30⟩)

/-- `existing.value += 50` applied to the first item with the matching text
(`next((w for w in word_cloud if w.text == topic.keyword), None)`). -/
def boostFirst : List WordCloudItem → String → List WordCloudItem
  | [], _ => []
  | w :: ws, kw =>
    if w.text = kw then ⟨w.text, w.value + 50⟩ :: ws else w :: boostFirst ws kw

/-- One iteration of the `for topic in goal_result.matched_topics` loop. -/
def applyTopic (cloud : List WordCloudItem) (t : TopicMatch) : List WordCloudItem :=
  if cloud.any (fun w => w.text == t.keyword) then boostFirst cloud t.keyword
  else cloud ++ [⟨t.keyword, 60⟩]

/-- The fully built (pre-sort) member word cloud. -/
def buildCloud (goal_result : GoalAlignmentResult) : List WordCloudItem :=
  goal_result.matched_topics.foldl applyTopic (seedCloud goal_result.conversation_keywords)

/-- `ReportFormatter.format_member_report`. -/
def format_member_report (goal_result : GoalAlignmentResult)
    (speech_result : SpeechAnalysisResult) (style_result : CoachingStyleResult) :
    MemberReportResponse :=
  let word_cloud :=
    (buildCloud goal_result).insertionSort (fun a b => b.value ≤ a.value)
  let base_items := goal_result.missing_topics.map
    (fun topic => "\x27" ++ topic ++ "\x27에 대해 더 논의해보기")
  let action_items :=
    if style_result.improvement_feedback ≠ "" then
      base_items ++ ["매니저와의 피드백 세션 준비하기"]
    else base_items
  { word_cloud := word_cloud.take 20
    alignment_score := goal_result.alignment_score
    alignment_category := pyUpper goal_result.alignment_category
    action_items := action_items
    meeting_duration := speech_result.meeting_duration
    total_turns := speech_result.total_turns }

end ReportFormatter

end OneOnOne
namespace OneOnOne

/-- C8: the member view's word cloud is sorted by weight in descending order
and contains at most 20 entries, for every aggregate. -/
theorem word_cloud_sorted_capped (goal_result : GoalAlignmentResult)
    (speech_result : SpeechAnalysisResult) (style_result : CoachingStyleResult) :
    (ReportFormatter.format_member_report goal_result speech_result
          style_result).word_cloud.length ≤ 20 ∧
      (ReportFormatter.format_member_report goal_result speech_result
          style_result).word_cloud.Pairwise (fun a b => b.value ≤ a.value) := by
  constructor
  · simpa [ReportFormatter.format_member_report] using
      List.length_take_le 20 _
  · have hs :
        ((ReportFormatter.buildCloud goal_result).insertionSort
            (fun a b => b.value ≤ a.value)).Pairwise
          (fun a b => b.value ≤ a.value) :=
      @List.sorted_insertionSort WordCloudItem (fun a b => b.value ≤ a.value)
        (fun a b => inferInstanceAs (Decidable (b.value ≤ a.value)))
        ⟨fun a b => le_total b.value a.value⟩
        ⟨fun _ _ _ hab hbc => le_trans hbc hab⟩
        (ReportFormatter.buildCloud goal_result)
    exact hs.sublist (List.take_sublist 20 _)

/-- C9: the two report projections are functions of the aggregate alone:
projecting equal aggregates yields identical manager and member views.  The
shallow embedding captures effect-freedom: both projections are total pure
functions of their four (resp. three) result arguments. -/
theorem projection_deterministic (s1 s2 : SpeechAnalysisResult)
    (c1 c2 : CoachingStyleResult) (f1 f2 : SafetyScoreResult)
    (g1 g2 : GoalAlignmentResult) (hs : s1 = s2) (hc : c1 = c2) (hf : f1 = f2)
    (hg : g1 = g2) :
    ReportFormatter.format_manager_report s1 c1 f1 g1 =
        ReportFormatter.format_manager_report s2 c2 f2 g2 ∧
      ReportFormatter.format_member_report g1 s1 c1 =
        ReportFormatter.format_member_report g2 s2 c2 := by
  subst hs hc hf hg
  exact ⟨rfl, rfl⟩

/-- Witness for C9 at one concrete aggregate. -/
theorem projection_deterministic_witness :
    ReportFormatter.format_manager_report
          ⟨1, 1, 2, 0, 0, 1/2, 1/2, 1, 1, 2, 1, 1, 2⟩
          ⟨40, 60, "Balanced", [], "feedback text"⟩
          ⟨80, "rationale", [], [], "analysis"⟩
          ⟨1/2, [], 0, [], [], 0, true, "medium", []⟩ =
        ReportFormatter.format_manager_report
          ⟨1, 1, 2, 0, 0, 1/2, 1/2, 1, 1, 2, 1, 1, 2⟩
          ⟨40, 60, "Balanced", [], "feedback text"⟩
          ⟨80, "rationale", [], [], "analysis"⟩
          ⟨1/2, [], 0, [], [], 0, true, "medium", []⟩ ∧
      ReportFormatter.format_member_report
          ⟨1/2, [], 0, [], [], 0, true, "medium", []⟩
          ⟨1, 1, 2, 0, 0, 1/2, 1/2, 1, 1, 2, 1, 1, 2⟩
          ⟨40, 60, "Balanced", [], "feedback text"⟩ =
        ReportFormatter.format_member_report
          ⟨1/2, [], 0, [], [], 0, true, "medium", []⟩
          ⟨1, 1, 2, 0, 0, 1/2, 1/2, 1, 1, 2, 1, 1, 2⟩
          ⟨40, 60, "Balanced", [], "feedback text"⟩ :=
  projection_deterministic _ _ _ _ _ _ _ _ rfl rfl rfl rfl

end OneOnOne
namespace OneOnOne

/-- C4 counterexample: an aggregate whose conversation keyword list has 16
entries and whose single matched topic is the 16th.  The code seeds only
`conversation_keywords[:15]`, so the 16th keyword is not seeded; the matched
topic "k16" is therefore initialized at weight 60, not boosted to 30 + 50 = 80
as claimed for a matched keyword that is a conversation keyword. -/
theorem member_cloud_seed_cx :
    (ReportFormatter.format_member_report
            ⟨1/2, [⟨"k16", 1, 1, 1/2⟩], 1, ["k16"],
              ["k01", "k02", "k03", "k04", "k05", "k06", "k07", "k08", "k09", "k10",
                "k11", "k12", "k13", "k14", "k15", "k16"],
              1, true, "medium", []⟩
            ⟨1, 1, 2, 0, 0, 1/2, 1/2, 1, 1, 2, 1, 1, 2⟩
            ⟨40, 60, "Balanced", [], "fb"⟩).word_cloud =
        (⟨"k16", 60⟩ ::
          (["k01", "k02", "k03", "k04", "k05", "k06", "k07", "k08", "k09", "k10",
              "k11", "k12", "k13", "k14", "k15"].map (fun kw => ⟨kw, 30⟩))) ∧
      (⟨"k16", 60⟩ : WordCloudItem) ∈
        (ReportFormatter.format_member_report
              ⟨1/2, [⟨"k16", 1, 1, 1/2⟩], 1, ["k16"],
                ["k01", "k02", "k03", "k04", "k05", "k06", "k07", "k08", "k09", "k10",
                  "k11", "k12", "k13", "k14", "k15", "k16"],
                1, true, "medium", []⟩
              ⟨1, 1, 2, 0, 0, 1/2, 1/2, 1, 1, 2, 1, 1, 2⟩
              ⟨40, 60, "Balanced", [], "fb"⟩).word_cloud ∧
      (⟨"k16", 80⟩ : WordCloudItem) ∉
        (ReportFormatter.format_member_report
              ⟨1/2, [⟨"k16", 1, 1, 1/2⟩], 1, ["k16"],
                ["k01", "k02", "k03", "k04", "k05", "k06", "k07", "k08", "k09", "k10",
                  "k11", "k12", "k13", "k14", "k15", "k16"],
                1, true, "medium", []⟩
              ⟨1, 1, 2, 0, 0, 1/2, 1/2, 1, 1, 2, 1, 1, 2⟩
              ⟨40, 60, "Balanced", [], "fb"⟩).word_cloud := by
  have h :
      (ReportFormatter.format_member_report
            ⟨1/2, [⟨"k16", 1, 1, 1/2⟩], 1, ["k16"],
              ["k01", "k02", "k03", "k04", "k05", "k06", "k07", "k08", "k09", "k10",
                "k11", "k12", "k13", "k14", "k15", "k16"],
              1, true, "medium", []⟩
            ⟨1, 1, 2, 0, 0, 1/2, 1/2, 1, 1, 2, 1, 1, 2⟩
            ⟨40, 60, "Balanced", [], "fb"⟩).word_cloud =
        (⟨"k16", 60⟩ ::
          (["k01", "k02", "k03", "k04", "k05", "k06", "k07", "k08", "k09", "k10",
              "k11", "k12", "k13", "k14", "k15"].map (fun kw => ⟨kw, 30⟩))) := by
    simp only [ReportFormatter.format_member_report, ReportFormatter.buildCloud,
      ReportFormatter.seedCloud, ReportFormatter.applyTopic, ReportFormatter.boostFirst,
      List.foldl, List.any, List.map, List.take, List.insertionSort, List.orderedInsert]
  refine ⟨h, ?_, ?_⟩
  · rw [h]; decide
  · rw [h]; decide

end OneOnOne
namespace OneOnOne

namespace ReportFormatter

/-- Reformulation of the (amended) member word-cloud construction: the first 15
conversation keywords are seeded at weight 30 and reach 80 exactly when they
are a matched-topic keyword; matched topics outside those seeds are appended at
weight 60, in matched-topic order. -/
def memberCloudSpec (ck : List String) (mts : List TopicMatch) : List WordCloudItem :=
  (ck.take 15).map
      (fun kw => if mts.any (fun t => t.keyword == kw) then ⟨kw, 80⟩ else ⟨kw, 30⟩) ++
    (mts.filter (fun t => !((ck.take 15).contains t.keyword))).map
      (fun t => ⟨t.keyword, 60⟩)

lemma boostFirst_append_left (S A : List WordCloudItem) (kw : String)
    (h : S.any (fun w => w.text == kw) = true) :
    boostFirst (S ++ A) kw = boostFirst S kw ++ A := by
  induction S with
  | nil => simp at h
  | cons w ws ih =>
    simp only [List.cons_append, boostFirst]
    by_cases hw : w.text = kw
    · rw [if_pos hw, if_pos hw]
      rfl
    · rw [if_neg hw, if_neg hw]
      simp only [List.any_cons, Bool.or_eq_true] at h
      rcases h with h | h
      · exact absurd (eq_of_beq h) hw
      · simp only [List.append_eq, ih h, List.cons_append]

lemma boostFirst_map_nodup (f : String → ℤ) :
    ∀ (l : List String), l.Nodup → ∀ kw, kw ∈ l →
      boostFirst (l.map (fun k => (⟨k, f k⟩ : WordCloudItem))) kw =
        l.map (fun k => if k = kw then (⟨k, f k + 50⟩ : WordCloudItem) else ⟨k, f k⟩) := by
  intro l
  induction l with
  | nil => intro _ kw hkw; simp at hkw
  | cons k rest ih =>
    intro hn kw hkw
    simp only [List.map_cons, boostFirst]
    by_cases hk : k = kw
    · rw [if_pos hk, if_pos hk]
      subst hk
      congr 1
      refine (List.map_congr_left (fun x hx => ?_)).symm
      have hxk : x ≠ k := fun hxe => (List.nodup_cons.mp hn).1 (hxe ▸ hx)
      rw [if_neg hxk]
    · rw [if_neg hk, if_neg hk]
      have hkw' : kw ∈ rest := by
        rcases List.mem_cons.mp hkw with h | h
        · exact absurd h.symm hk
        · exact h
      rw [ih (List.nodup_cons.mp hn).2 kw hkw']

end ReportFormatter

end OneOnOne
namespace OneOnOne

namespace ReportFormatter

lemma list_any_map {α β : Type} (f : α → β) (l : List α) (p : β → Bool) :
    (l.map f).any p = l.any (fun a => p (f a)) := by
  induction l with
  | nil => rfl
  | cons a l ih => simp [ih]

lemma applyTopic_state_step (take15 : List String) (h15 : take15.Nodup)
    (done : List TopicMatch) (t : TopicMatch)
    (hd : t.keyword ∉ done.map (fun t' => t'.keyword)) :
    applyTopic
        ((take15.map (fun kw =>
            if done.any (fun t' => t'.keyword == kw) then (⟨kw, 80⟩ : WordCloudItem)
            else ⟨kw, 30⟩)) ++
          ((done.filter (fun t' => !(take15.contains t'.keyword))).map
            (fun t' => (⟨t'.keyword, 60⟩ : WordCloudItem)))) t =
      (take15.map (fun kw =>
          if (done ++ [t]).any (fun t' => t'.keyword == kw) then (⟨kw, 80⟩ : WordCloudItem)
          else ⟨kw, 30⟩)) ++
        (((done ++ [t]).filter (fun t' => !(take15.contains t'.keyword))).map
          (fun t' => (⟨t'.keyword, 60⟩ : WordCloudItem))) := by
  have hSeq :
      (take15.map (fun kw =>
          if done.any (fun t' => t'.keyword == kw) then (⟨kw, 80⟩ : WordCloudItem)
          else ⟨kw, 30⟩)) =
        take15.map (fun kw =>
          (⟨kw, if done.any (fun t' => t'.keyword == kw) then (80 : ℤ) else 30⟩ :
            WordCloudItem)) :=
    List.map_congr_left (fun kw _ => by split_ifs <;> rfl)
  have hdone_any : ∀ kw, t.keyword ≠ kw →
      ((done ++ [t]).any (fun t' => t'.keyword == kw)) =
        (done.any (fun t' => t'.keyword == kw)) := by
    intro kw hne
    rw [List.any_append]
    have : ([t].any (fun t' => t'.keyword == kw)) = false := by
      simp [hne]
    rw [this, Bool.or_false]
  by_cases hin : t.keyword ∈ take15
  · have hanyS :
        ((take15.map (fun kw =>
            (⟨kw, if done.any (fun t' => t'.keyword == kw) then (80 : ℤ) else 30⟩ :
              WordCloudItem))).any (fun w => w.text == t.keyword)) = true := by
      rw [list_any_map]
      exact List.any_eq_true.mpr ⟨t.keyword, hin, by simp⟩
    have hcond :
        (((take15.map (fun kw =>
              (⟨kw, if done.any (fun t' => t'.keyword == kw) then (80 : ℤ) else 30⟩ :
                WordCloudItem))) ++
            ((done.filter (fun t' => !(take15.contains t'.keyword))).map
              (fun t' => (⟨t'.keyword, 60⟩ : WordCloudItem)))).any
          (fun w => w.text == t.keyword)) = true := by
      rw [List.any_append, hanyS, Bool.true_or]
    unfold applyTopic
    rw [hSeq, if_pos hcond,
      boostFirst_append_left _ _ _ hanyS,
      boostFirst_map_nodup _ take15 h15 t.keyword hin]
    congr 1
    · refine List.map_congr_left (fun kw hkw => ?_)
      by_cases hkwt : kw = t.keyword
      · rw [if_pos hkwt]
        have hfd : (done.any (fun t' => t'.keyword == kw)) = false := by
          rcases h : done.any (fun t' => t'.keyword == kw) with _ | _
          · rfl
          · exfalso
            obtain ⟨t', ht', he⟩ := List.any_eq_true.mp h
            exact hd (List.mem_map.mpr ⟨t', ht', (eq_of_beq he).trans hkwt⟩)
        have hta : ((done ++ [t]).any (fun t' => t'.keyword == kw)) = true :=
          List.any_eq_true.mpr ⟨t, by simp, by simp [hkwt]⟩
        rw [hfd, hta]
        simp
      · rw [if_neg hkwt, hdone_any kw (fun he => hkwt he.symm)]
        split_ifs <;> rfl
    · have hkeep : ((([t] : List TopicMatch)).filter
          (fun t' => !(take15.contains t'.keyword))) = [] := by
        simp [List.filter, List.elem_iff, hin]
      rw [List.filter_append, hkeep, List.append_nil]
  · have hanyS :
        ((take15.map (fun kw =>
            (⟨kw, if done.any (fun t' => t'.keyword == kw) then (80 : ℤ) else 30⟩ :
              WordCloudItem))).any (fun w => w.text == t.keyword)) = false := by
      rw [list_any_map]
      refine List.any_eq_false.mpr (fun kw hkw => ?_)
      show ¬ ((kw == t.keyword) = true)
      intro he
      exact hin ((eq_of_beq he) ▸ hkw)
    have hanyA :
        (((done.filter (fun t' => !(take15.contains t'.keyword))).map
            (fun t' => (⟨t'.keyword, 60⟩ : WordCloudItem))).any
          (fun w => w.text == t.keyword)) = false := by
      rw [list_any_map]
      refine List.any_eq_false.mpr (fun t' ht' => ?_)
      show ¬ ((t'.keyword == t.keyword) = true)
      intro he
      exact hd (List.mem_map.mpr ⟨t', (List.mem_filter.mp ht').1, eq_of_beq he⟩)
    have hcond :
        (((take15.map (fun kw =>
              (⟨kw, if done.any (fun t' => t'.keyword == kw) then (80 : ℤ) else 30⟩ :
                WordCloudItem))) ++
            ((done.filter (fun t' => !(take15.contains t'.keyword))).map
              (fun t' => (⟨t'.keyword, 60⟩ : WordCloudItem)))).any
          (fun w => w.text == t.keyword)) = false := by
      rw [List.any_append, hanyS, hanyA]
      rfl
    unfold applyTopic
    rw [hSeq, if_neg (by rw [hcond]; exact Bool.false_ne_true)]
    have hSsame :
        (take15.map (fun kw =>
            (⟨kw, if done.any (fun t' => t'.keyword == kw) then (80 : ℤ) else 30⟩ :
              WordCloudItem))) =
          take15.map (fun kw =>
            if (done ++ [t]).any (fun t' => t'.keyword == kw) then (⟨kw, 80⟩ : WordCloudItem)
            else ⟨kw, 30⟩) := by
      refine List.map_congr_left (fun kw hkw => ?_)
      have hne : t.keyword ≠ kw := fun he => hin (he ▸ hkw)
      rw [hdone_any kw hne]
      split_ifs <;> rfl
    have hkeep : ((([t] : List TopicMatch)).filter
        (fun t' => !(take15.contains t'.keyword))) = [t] := by
      simp [List.filter, List.elem_iff, hin]
    rw [List.filter_append, hkeep, List.map_append, hSsame]
    simp [List.append_assoc]

end ReportFormatter

end OneOnOne
namespace OneOnOne

namespace ReportFormatter

lemma foldl_applyTopic_spec (take15 : List String) (h15 : take15.Nodup) :
    ∀ (mts done : List TopicMatch),
      ((done.map (fun t => t.keyword)) ++ (mts.map (fun t => t.keyword))).Nodup →
      mts.foldl applyTopic
          ((take15.map (fun kw =>
              if done.any (fun t' => t'.keyword == kw) then (⟨kw, 80⟩ : WordCloudItem)
              else ⟨kw, 30⟩)) ++
            ((done.filter (fun t' => !(take15.contains t'.keyword))).map
              (fun t' => (⟨t'.keyword, 60⟩ : WordCloudItem)))) =
        (take15.map (fun kw =>
            if (done ++ mts).any (fun t' => t'.keyword == kw) then (⟨kw, 80⟩ : WordCloudItem)
            else ⟨kw, 30⟩)) ++
          (((done ++ mts).filter (fun t' => !(take15.contains t'.keyword))).map
            (fun t' => (⟨t'.keyword, 60⟩ : WordCloudItem))) := by
  intro mts
  induction mts with
  | nil =>
    intro done h
    simp
  | cons t rest ih =>
    intro done hnd
    have hnd' : ((done.map (fun t => t.keyword) ++ [t.keyword]) ++
        rest.map (fun t => t.keyword)).Nodup := by
      simpa [List.append_assoc] using hnd
    have hd : t.keyword ∉ done.map (fun t' => t'.keyword) := by
      have h1 :
          (done.map (fun t => t.keyword) ++
            (t.keyword :: rest.map (fun t => t.keyword))).Nodup := by
        simpa using hnd
      intro hmem
      exact (List.disjoint_of_nodup_append h1) hmem (List.mem_cons_self _ _)
    rw [List.foldl_cons, applyTopic_state_step take15 h15 done t hd]
    have := ih (done ++ [t]) (by simpa [List.append_assoc] using hnd')
    simpa [List.append_assoc] using this

/-- The fold of `applyTopic` over the matched topics equals the direct
construction, provided the first 15 conversation keywords are distinct and the
matched-topic keywords are distinct (both hold for calculator-produced
results). -/
lemma buildCloud_eq_spec (gr : GoalAlignmentResult)
    (h15 : (gr.conversation_keywords.take 15).Nodup)
    (hmt : (gr.matched_topics.map (fun t => t.keyword)).Nodup) :
    buildCloud gr = memberCloudSpec gr.conversation_keywords gr.matched_topics := by
  have h := foldl_applyTopic_spec (gr.conversation_keywords.take 15) h15
    gr.matched_topics [] (by simpa using hmt)
  simp only [List.map_nil, List.any_nil, Bool.false_eq_true, if_false, List.filter_nil,
    List.nil_append, List.append_nil] at h
  simpa [buildCloud, seedCloud, memberCloudSpec] using h

end ReportFormatter

/-- C4 (amended): the member word cloud is built by seeding the FIRST 15
conversation keywords at weight 30, then for each matched topic adding +50 to
its seed when the keyword is among those 15 seeds (reaching 80), and otherwise
appending it at weight 60; the view shows this list sorted by weight descending
and truncated to 20.  Stated for aggregates whose first-15 conversation
keywords and matched-topic keywords are duplicate-free, which the calculator
guarantees. -/
theorem member_cloud_construction (goal_result : GoalAlignmentResult)
    (speech_result : SpeechAnalysisResult) (style_result : CoachingStyleResult)
    (h15 : (goal_result.conversation_keywords.take 15).Nodup)
    (hmt : (goal_result.matched_topics.map (fun t => t.keyword)).Nodup) :
    (ReportFormatter.format_member_report goal_result speech_result
        style_result).word_cloud =
      ((ReportFormatter.memberCloudSpec goal_result.conversation_keywords
            goal_result.matched_topics).insertionSort
          (fun a b => b.value ≤ a.value)).take 20 := by
  simp only [ReportFormatter.format_member_report]
  rw [ReportFormatter.buildCloud_eq_spec goal_result h15 hmt]

/-- Witness for the amended C4 theorem at a concrete aggregate with two
conversation keywords, one of which is matched. -/
theorem member_cloud_construction_witness :
    (ReportFormatter.format_member_report
          ⟨1/2, [⟨"beta", 1, 1, 1/2⟩], 1, ["beta"], ["alpha", "beta"], 1, true,
            "medium", []⟩
          ⟨1, 1, 2, 0, 0, 1/2, 1/2, 1, 1, 2, 1, 1, 2⟩
          ⟨40, 60, "Balanced", [], "fb"⟩).word_cloud =
      ((ReportFormatter.memberCloudSpec ["alpha", "beta"]
            [⟨"beta", 1, 1, 1/2⟩]).insertionSort
          (fun a b => b.value ≤ a.value)).take 20 :=
  member_cloud_construction
    ⟨1/2, [⟨"beta", 1, 1, 1/2⟩], 1, ["beta"], ["alpha", "beta"], 1, true, "medium", []⟩
    ⟨1, 1, 2, 0, 0, 1/2, 1/2, 1, 1, 2, 1, 1, 2⟩
    ⟨40, 60, "Balanced", [], "fb"⟩
    (by decide) (by decide)

end OneOnOne
namespace OneOnOne

namespace OneOnOneService

/-- The outcome-collection step of `OneOnOneService.analyze_audio`
(service.py lines 134-145): `asyncio.gather(..., return_exceptions=True)`
collects all four outcomes in the fixed order (speech, goal, coaching, safety);
the following loop re-raises the first exception found, and only when none is
present are the four results unpacked. -/
def gatherCalculatorResults {E A B C D : Type}
    (speech : Except E A) (goal : Except E B) (coaching : Except E C)
    (safety : Except E D) : Except E (A × B × C × D) :=
  match speech with
  | .error e => .error e
  | .ok a =>
    match goal with
    | .error e => .error e
    | .ok b =>
      match coaching with
      | .error e => .error e
      | .ok c =>
        match safety with
        | .error e => .error e
        | .ok d => .ok (a, b, c, d)

/-- The analysis core of `analyze_audio` downstream of the calculators: the
manager and member reports (the persisted report payload) are built only when
all four calculators succeeded; otherwise the first error is re-raised
untouched. -/
def analyzeCore {E : Type}
    (speech : Except E SpeechAnalysisResult) (goal : Except E GoalAlignmentResult)
    (coaching : Except E CoachingStyleResult) (safety : Except E SafetyScoreResult) :
    Except E (ManagerReportResponse × MemberReportResponse) :=
  match gatherCalculatorResults speech goal coaching safety with
  | .error e => .error e
  | .ok (s, g, c, f) =>
    .ok (ReportFormatter.format_manager_report s c f g,
      ReportFormatter.format_member_report g s c)

end OneOnOneService

/-- C1: if any one of the four calculators fails (the other three succeeding),
the orchestrator fails with exactly that error; whenever any calculator fails
no report pair is produced (all computed results are discarded); and any error
the orchestrator raises is one of the calculators' own errors, never a
substituted or downgraded one. -/
theorem orchestrator_atomicity {E : Type}
    (speech : Except E SpeechAnalysisResult) (goal : Except E GoalAlignmentResult)
    (coaching : Except E CoachingStyleResult) (safety : Except E SafetyScoreResult) :
    (∀ e : E,
      (speech = .error e ∧ (∃ b, goal = .ok b) ∧ (∃ c, coaching = .ok c) ∧
          (∃ d, safety = .ok d) →
        OneOnOneService.analyzeCore speech goal coaching safety = .error e) ∧
      ((∃ a, speech = .ok a) ∧ goal = .error e ∧ (∃ c, coaching = .ok c) ∧
          (∃ d, safety = .ok d) →
        OneOnOneService.analyzeCore speech goal coaching safety = .error e) ∧
      ((∃ a, speech = .ok a) ∧ (∃ b, goal = .ok b) ∧ coaching = .error e ∧
          (∃ d, safety = .ok d) →
        OneOnOneService.analyzeCore speech goal coaching safety = .error e) ∧
      ((∃ a, speech = .ok a) ∧ (∃ b, goal = .ok b) ∧ (∃ c, coaching = .ok c) ∧
          safety = .error e →
        OneOnOneService.analyzeCore speech goal coaching safety = .error e)) ∧
    ((∃ e, speech = .error e ∨ goal = .error e ∨ coaching = .error e ∨
        safety = .error e) →
      ∀ rep, OneOnOneService.analyzeCore speech goal coaching safety ≠ .ok rep) ∧
    (∀ e : E, OneOnOneService.analyzeCore speech goal coaching safety = .error e →
      speech = .error e ∨ goal = .error e ∨ coaching = .error e ∨
        safety = .error e) := by
  rcases speech with e1 | a <;> rcases goal with e2 | b <;>
    rcases coaching with e3 | c <;> rcases safety with e4 | d <;>
    simp [OneOnOneService.analyzeCore, OneOnOneService.gatherCalculatorResults]

/-- Witness for C1: the timing calculator fails with a concrete error while the
other three succeed; the orchestrator fails with exactly that error. -/
theorem orchestrator_atomicity_witness :
    OneOnOneService.analyzeCore
        ((.error "calculator failed") : Except String SpeechAnalysisResult)
        (.ok ⟨1/2, [], 0, [], [], 0, true, "medium", []⟩)
        (.ok ⟨40, 60, "Balanced", [], "fb"⟩)
        (.ok ⟨80, "rationale", [], [], "analysis"⟩) =
      .error "calculator failed" :=
  ((orchestrator_atomicity (.error "calculator failed")
        (.ok ⟨1/2, [], 0, [], [], 0, true, "medium", []⟩)
        (.ok ⟨40, 60, "Balanced", [], "fb"⟩)
        (.ok ⟨80, "rationale", [], [], "analysis"⟩)).1 "calculator failed").1
    ⟨rfl, ⟨_, rfl⟩, ⟨_, rfl⟩, ⟨_, rfl⟩⟩

end OneOnOne
